import Mathlib

/-!
Verification of the consistency-validation engine of the AduanaProyecto
backend (src/aduana_backend/core/validator.py and validator_enhanced.py).

Python strings are modelled as lists of characters (PyStr).  The Unicode
library calls of normalize_string (unicodedata.normalize with NFD plus the
Mn category test, and str.lower) are modelled by finite tables covering the
Latin letters this domain uses: nfdTable gives the canonical decomposition
of the composed accented characters, combiningMarks lists the combining
(Mn) code points they produce, and lowerTable is the ASCII case map.
Characters outside the tables decompose to themselves and lower-case to
themselves.  datetime.now() is modelled by an explicit nowSec parameter
(seconds since the epoch); timedelta.days is floor division by 86400.
Python floats (cantidad, peso_monto, confidence) are modelled as exact
rationals; the IEEE-754 rounding the source's float arithmetic performs is
not modelled.
-/

namespace Aduana

abbrev PyStr := List Char

def NO_ENCONTRADO : PyStr := "NO_ENCONTRADO".data

def NO_LEGIBLE : PyStr := "NO_LEGIBLE".data

/-- Whitespace as recognised by Python str.split with no arguments
(restricted to the ASCII whitespace characters). -/
def pyIsSpace (c : Char) : Bool :=
  c == ' ' || c == '\t' || c == '\n' || c == '\r' || c == '\x0b' || c == '\x0c'

/-- The combining marks (Unicode category Mn) produced by the modelled
decompositions. -/
def combiningMarks : List Char :=
  ['̀', '́', '̂', '̃', '̈']

def isMn (c : Char) : Bool := combiningMarks.contains c

/-- Association-list lookup used for the character tables. -/
def tblLookup {A : Type} (tbl : List (Char × A)) (c : Char) : Option A :=
  match tbl with
  | [] => none
  | (k, v) :: rest => if c = k then some v else tblLookup rest c

/-- Canonical (NFD) decompositions of the composed Latin characters the
domain uses; every other character decomposes to itself. -/
def nfdTable : List (Char × List Char) :=
  [('Á', ['A', '́']), ('É', ['E', '́']), ('Í', ['I', '́']),
   ('Ó', ['O', '́']), ('Ú', ['U', '́']), ('Ü', ['U', '̈']),
   ('Ñ', ['N', '̃']), ('À', ['A', '̀']), ('Â', ['A', '̂']),
   ('á', ['a', '́']), ('é', ['e', '́']), ('í', ['i', '́']),
   ('ó', ['o', '́']), ('ú', ['u', '́']), ('ü', ['u', '̈']),
   ('ñ', ['n', '̃']), ('à', ['a', '̀']), ('â', ['a', '̂'])]

def nfd (c : Char) : List Char :=
  match tblLookup nfdTable c with
  | some l => l
  | none => [c]

/-- unicodedata.normalize applied character-wise to the whole string. -/
def nfdAll : List Char → List Char
  | [] => []
  | c :: cs => nfd c ++ nfdAll cs

/-- ASCII case map for str.lower; other characters map to themselves
(the accented upper-case letters never reach lower: NFD removes them). -/
def lowerTable : List (Char × Char) :=
  [('A', 'a'), ('B', 'b'), ('C', 'c'), ('D', 'd'), ('E', 'e'), ('F', 'f'),
   ('G', 'g'), ('H', 'h'), ('I', 'i'), ('J', 'j'), ('K', 'k'), ('L', 'l'),
   ('M', 'm'), ('N', 'n'), ('O', 'o'), ('P', 'p'), ('Q', 'q'), ('R', 'r'),
   ('S', 's'), ('T', 't'), ('U', 'u'), ('V', 'v'), ('W', 'w'), ('X', 'x'),
   ('Y', 'y'), ('Z', 'z')]

def pyLower (c : Char) : Char :=
  match tblLookup lowerTable c with
  | some l => l
  | none => c

/-- Python str.split() with no arguments: split on whitespace runs,
dropping empty pieces. -/
def splitWs : List Char → List (List Char)
  | [] => []
  | c :: cs =>
    if pyIsSpace c then splitWs cs
    else
      match cs, splitWs cs with
      | [], _ => [[c]]
      | d :: _, rest =>
        if pyIsSpace d then [c] :: rest
        else
          match rest with
          | [] => [[c]]
          | w :: ws => (c :: w) :: ws

/-- Python str.join with a single-space separator. -/
def joinWords : List (List Char) → List Char
  | [] => []
  | [w] => w
  | w :: w2 :: ws => w ++ ' ' :: joinWords (w2 :: ws)

/-- normalize_string from core/validator.py: NFD-decompose, drop combining
marks, lower-case, and collapse whitespace runs
(the final return is ' '.join(text.lower().split())). -/
def normalize_string (text : PyStr) : PyStr :=
  let stripped := (nfdAll text).filter (fun c => !isMn c)
  joinWords (splitWs (stripped.map pyLower))

/-- xs is a leading segment of ys. -/
def leadsIn : List Char → List Char → Bool
  | [], _ => true
  | _ :: _, [] => false
  | a :: s1, b :: s2 => a == b && leadsIn s1 s2

/-- Python substring containment (the `in` operator on str). -/
def strContains (xs : List Char) : List Char → Bool
  | [] => leadsIn xs []
  | b :: bs => leadsIn xs (b :: bs) || strContains xs bs

/-- Distinct elements of a list of words, modelling Python set(...). -/
def dedupWords : List PyStr → List PyStr
  | [] => []
  | w :: ws =>
    let r := dedupWords ws
    if r.contains w then r else w :: r

/-- strings_match from core/validator.py.  The Python default threshold is
0.9; every call site in this file passes it explicitly. -/
def strings_match (str1 str2 : PyStr) (threshold : ℚ) : Bool :=
  let norm1 := normalize_string str1
  let norm2 := normalize_string str2
  if norm1 = norm2 then true
  else if strContains norm1 norm2 || strContains norm2 norm1 then true
  else
    let words1 := dedupWords (splitWs norm1)
    let words2 := dedupWords (splitWs norm2)
    if words1 = [] ∨ words2 = [] then false
    else
      let inter := words1.filter (fun w => words2.contains w)
      let union := dedupWords (words1 ++ words2)
      decide (threshold ≤ mkRat inter.length union.length)

/-- models/schemas.py ValidationError.  The single-quote delimiters the
Python f-strings place around interpolated values are omitted from the
modelled messages; numeric interpolation uses toString. -/
structure ValidationError where
  rule_id : String
  rule_name : String
  message : String
  severity : String
  deriving DecidableEq

structure ExtractedDODAData where
  fecha_emision : PyStr
  seccion_aduanera : PyStr
  deriving DecidableEq

structure ExtractedManifestData where
  placa_tracto : PyStr
  placa_remolque : PyStr
  nombre_operador : PyStr
  aduana_arribo : PyStr
  numero_entry : PyStr
  broker : PyStr
  descripcion_mercancia : PyStr
  cantidad : ℚ
  peso_monto : ℚ
  deriving DecidableEq

structure ExtractedPrefileData where
  numero_entry : PyStr
  broker : PyStr
  descripcion_mercancia : PyStr
  cantidad : ℚ
  peso_monto : ℚ
  deriving DecidableEq

structure ExtractedPlateData where
  plate_number : PyStr
  confidence : Option ℚ
  deriving DecidableEq

structure AllExtractedData where
  doda : ExtractedDODAData
  manifest : ExtractedManifestData
  prefile : ExtractedPrefileData
  tractor_plate : ExtractedPlateData
  trailer_plate : ExtractedPlateData
  deriving DecidableEq

structure DriverData where
  name : PyStr
  deriving DecidableEq

structure CapturedData where
  driverData : DriverData
  deriving DecidableEq

def DODA_MAX_AGE_DAYS : Int := 3

/-- Python str.split with a single-character separator (empty pieces kept),
used to model datetime.strptime with the %Y-%m-%d format. -/
def splitOnChar (sep : Char) : PyStr → List PyStr
  | [] => [[]]
  | c :: cs =>
    if c = sep then [] :: splitOnChar sep cs
    else
      match splitOnChar sep cs with
      | [] => [[c]]
      | p :: ps => (c :: p) :: ps

def digitsVal (l : PyStr) : Nat :=
  l.foldl (fun a c => a * 10 + (c.toNat - 48)) 0

def isLeapYear (y : Nat) : Bool :=
  y % 4 == 0 && (y % 100 != 0 || y % 400 == 0)

def daysInMonth (y m : Nat) : Nat :=
  if m = 2 then (if isLeapYear y then 29 else 28)
  else if m = 4 ∨ m = 6 ∨ m = 9 ∨ m = 11 then 30
  else 31

/-- The %d field of CPython strptime: its regular expression is
3[01]|[12] then a digit|0[1-9]|[1-9]|space then [1-9], so one or two
digits giving 1..31, or a space followed by a nonzero digit. -/
def parseDayField (ds : PyStr) : Option Nat :=
  if ds ≠ [] ∧ ds.length ≤ 2 ∧ ds.all Char.isDigit ∧
     1 ≤ digitsVal ds ∧ digitsVal ds ≤ 31 then
    some (digitsVal ds)
  else
    match ds with
    | [' ', c] => if c.isDigit ∧ c ≠ '0' then some (c.toNat - 48) else none
    | _ => none

/-- datetime.strptime(s, the year-month-day format), following CPython's
strptime regular expressions: %Y is exactly four digits, %m is one or two
digits giving 1..12, %d as in parseDayField, the three separated by
dashes with nothing left over; the triple must be a real calendar date
with year at least 1 (restricted to ASCII digits). -/
def parseDateYMD (s : PyStr) : Option (Nat × Nat × Nat) :=
  match splitOnChar '-' s with
  | [ys, ms, ds] =>
    if ys.length = 4 ∧ ys.all Char.isDigit ∧
       ms ≠ [] ∧ ms.length ≤ 2 ∧ ms.all Char.isDigit ∧
       1 ≤ digitsVal ms ∧ digitsVal ms ≤ 12 then
      match parseDayField ds with
      | some d =>
        let y := digitsVal ys
        let m := digitsVal ms
        if 1 ≤ y ∧ 1 ≤ d ∧ d ≤ daysInMonth y m then some (y, m, d)
        else none
      | none => none
    else none
  | _ => none

/-- Days from 1970-01-01 of a civil date (standard era-based formula). -/
def daysFromCivil (y m d : Nat) : Int :=
  let yAdj : Int := if m ≤ 2 then (y : Int) - 1 else (y : Int)
  let era : Int := yAdj.fdiv 400
  let yoe : Int := yAdj - era * 400
  let mp : Int := ((m : Int) + 9) % 12
  let doy : Int := (153 * mp + 2).fdiv 5 + (d : Int) - 1
  let doe : Int := yoe * 365 + yoe.fdiv 4 - yoe.fdiv 100 + doy
  era * 146097 + doe - 719468

/-- (hoy - fecha).days of validator.py line 121: the parsed date is
midnight, the subtraction is in seconds, and timedelta.days floors. -/
def edadDias (nowSec : Int) (ymd : Nat × Nat × Nat) : Int :=
  (nowSec - 86400 * daysFromCivil ymd.1 ymd.2.1 ymd.2.2).fdiv 86400

/-- validate_r1_doda_vigencia from core/validator.py.  datetime.now() is
the explicit nowSec argument; the try/except wrapper is dead in this total
model, so the internal-fault branch is not represented. -/
def validate_r1_doda_vigencia (extracted_data : AllExtractedData)
    (nowSec : Int) : Option ValidationError :=
  let fecha_emision_str := extracted_data.doda.fecha_emision
  if fecha_emision_str = NO_ENCONTRADO ∨ fecha_emision_str = [] then
    some { rule_id := "R1", rule_name := "Vigencia del DODA",
           message := "No se pudo extraer la fecha de emisión del DODA",
           severity := "error" }
  else
    match parseDateYMD fecha_emision_str with
    | none =>
      some { rule_id := "R1", rule_name := "Vigencia del DODA",
             message := "Formato de fecha inválido en DODA: " ++ String.mk fecha_emision_str,
             severity := "error" }
    | some ymd =>
      let edad_dias := edadDias nowSec ymd
      if edad_dias > DODA_MAX_AGE_DAYS then
        some { rule_id := "R1", rule_name := "Vigencia del DODA",
               message := "El DODA tiene " ++ toString edad_dias ++
                 " días de antigüedad (máximo permitido: " ++ toString DODA_MAX_AGE_DAYS ++
                 " días). Fecha de emisión: " ++ String.mk fecha_emision_str,
               severity := "error" }
      else if edad_dias < 0 then
        some { rule_id := "R1", rule_name := "Vigencia del DODA",
               message := "La fecha de emisión del DODA es futura: " ++ String.mk fecha_emision_str,
               severity := "error" }
      else none

/-- Exact difference a - b of two rationals, written through mkRat so that
it evaluates by kernel reduction (Rat.sub is irreducible in this library;
the bridging lemma ratDiff_eq below shows it is ordinary subtraction). -/
def ratDiff (a b : ℚ) : ℚ :=
  mkRat (a.num * (b.den : Int) - b.num * (a.den : Int)) (a.den * b.den)

/-- Python abs on a (rational-modelled) float. -/
def pyAbs (q : ℚ) : ℚ := if q < 0 then -q else q

/-- floor(100 q + 1/2), computed on the numerator and denominator. -/
def pctRound (q : ℚ) : Int := (200 * q.num + (q.den : Int)).fdiv (2 * (q.den : Int))

/-- Python format spec .0% applied to a confidence value (rounding to the
nearest percent; the half-percent tie is rounded up here where Python
rounds ties to even, a difference no claim touches). -/
def fmtPct (q : ℚ) : String := toString (pctRound q) ++ "%"

/-- The tractor-plate block of validate_r2_placas. -/
def validate_r2_tracto (extracted_data : AllExtractedData) : List ValidationError :=
  let placa_manifest_tracto := extracted_data.manifest.placa_tracto
  let placa_foto_tracto := extracted_data.tractor_plate.plate_number
  if placa_manifest_tracto = NO_ENCONTRADO ∨ placa_manifest_tracto = [] then
    [{ rule_id := "R2", rule_name := "Coincidencia de Placas - Tracto",
       message := "No se pudo extraer la placa del tracto del Manifiesto",
       severity := "error" }]
  else if placa_foto_tracto = NO_LEGIBLE ∨ placa_foto_tracto = [] then
    [{ rule_id := "R2", rule_name := "Coincidencia de Placas - Tracto",
       message := "No se pudo leer la placa del tracto en la foto",
       severity := "error" }]
  else if strings_match placa_manifest_tracto placa_foto_tracto (mkRat 9 10) = false then
    let confidence := extracted_data.tractor_plate.confidence.getD 0
    [{ rule_id := "R2", rule_name := "Coincidencia de Placas - Tracto",
       message := "La placa del tracto no coincide. Manifiesto: " ++ String.mk placa_manifest_tracto ++
         ", Foto: " ++ String.mk placa_foto_tracto ++ " (confianza: " ++ fmtPct confidence ++ ")",
       severity := "error" }]
  else []

/-- The trailer-plate block of validate_r2_placas. -/
def validate_r2_remolque (extracted_data : AllExtractedData) : List ValidationError :=
  let placa_manifest_remolque := extracted_data.manifest.placa_remolque
  let placa_foto_remolque := extracted_data.trailer_plate.plate_number
  if placa_manifest_remolque = NO_ENCONTRADO ∨ placa_manifest_remolque = [] then
    [{ rule_id := "R2", rule_name := "Coincidencia de Placas - Remolque",
       message := "No se pudo extraer la placa del remolque del Manifiesto",
       severity := "error" }]
  else if placa_foto_remolque = NO_LEGIBLE ∨ placa_foto_remolque = [] then
    [{ rule_id := "R2", rule_name := "Coincidencia de Placas - Remolque",
       message := "No se pudo leer la placa del remolque en la foto",
       severity := "error" }]
  else if strings_match placa_manifest_remolque placa_foto_remolque (mkRat 9 10) = false then
    let confidence := extracted_data.trailer_plate.confidence.getD 0
    [{ rule_id := "R2", rule_name := "Coincidencia de Placas - Remolque",
       message := "La placa del remolque no coincide. Manifiesto: " ++ String.mk placa_manifest_remolque ++
         ", Foto: " ++ String.mk placa_foto_remolque ++ " (confianza: " ++ fmtPct confidence ++ ")",
       severity := "error" }]
  else []

/-- validate_r2_placas: the two plates are checked independently and the
findings accumulate. -/
def validate_r2_placas (extracted_data : AllExtractedData) : List ValidationError :=
  validate_r2_tracto extracted_data ++ validate_r2_remolque extracted_data

/-- extract_broker_from_entry, nested inside validate_r3 in the source. -/
def extract_broker_from_entry (entry : PyStr) : PyStr :=
  if entry = NO_ENCONTRADO ∨ entry = [] then NO_ENCONTRADO
  else
    let digits := entry.filter Char.isDigit
    if 3 ≤ digits.length then digits.take 3 else NO_ENCONTRADO

/-- The R3.1 entry-number block, over the two entry-number fields. -/
def r3_numero_entry (manifest_entry prefile_entry : PyStr) : List ValidationError :=
  if manifest_entry = NO_ENCONTRADO ∨ prefile_entry = NO_ENCONTRADO then
    [{ rule_id := "R3", rule_name := "Cruce Manifest/Prefile - Número Entry",
       message := "No se pudo extraer el número de entry de uno o ambos documentos",
       severity := "error" }]
  else if strings_match manifest_entry prefile_entry (mkRat 9 10) = false then
    [{ rule_id := "R3", rule_name := "Cruce Manifest/Prefile - Número Entry",
       message := "El número de entry no coincide. Manifiesto: " ++ String.mk manifest_entry ++
         ", Prefile: " ++ String.mk prefile_entry,
       severity := "error" }]
  else []

/-- The R3.2 broker block, over the two entry-number fields. -/
def r3_broker (manifest_entry prefile_entry : PyStr) : List ValidationError :=
  let broker_manifest := extract_broker_from_entry manifest_entry
  let broker_prefile := extract_broker_from_entry prefile_entry
  if broker_manifest = NO_ENCONTRADO ∨ broker_prefile = NO_ENCONTRADO then
    [{ rule_id := "R3", rule_name := "Cruce Manifest/Prefile - Broker",
       message := "No se pudo extraer el código de broker del número de entry de uno o ambos documentos",
       severity := "error" }]
  else if broker_manifest ≠ broker_prefile then
    [{ rule_id := "R3", rule_name := "Cruce Manifest/Prefile - Broker",
       message := "El código de broker no coincide. Manifiesto: " ++ String.mk broker_manifest ++
         " (Entry: " ++ String.mk manifest_entry ++ "), Prefile: " ++ String.mk broker_prefile ++
         " (Entry: " ++ String.mk prefile_entry ++ ")",
       severity := "error" }]
  else []

/-- The R3.3 merchandise-description block (relaxed 0.7 threshold, warning
severity on a fuzzy mismatch). -/
def r3_descripcion (manifest_desc prefile_desc : PyStr) : List ValidationError :=
  if manifest_desc = NO_ENCONTRADO ∨ prefile_desc = NO_ENCONTRADO then
    [{ rule_id := "R3", rule_name := "Cruce Manifest/Prefile - Descripción",
       message := "No se pudo extraer la descripción de mercancía de uno o ambos documentos",
       severity := "error" }]
  else if strings_match manifest_desc prefile_desc (mkRat 7 10) = false then
    [{ rule_id := "R3", rule_name := "Cruce Manifest/Prefile - Descripción",
       message := "La descripción de mercancía no coincide. Manifiesto: " ++ String.mk manifest_desc ++
         ", Prefile: " ++ String.mk prefile_desc,
       severity := "warning" }]
  else []

/-- The R3.4 quantity block.  Floats are modelled as exact rationals: the
source compares IEEE doubles, whose rounding of the subtraction and of the
0.01 literal this model does not capture. -/
def r3_cantidad (manifest_cantidad prefile_cantidad : ℚ) : List ValidationError :=
  if manifest_cantidad = 0 ∨ prefile_cantidad = 0 then
    [{ rule_id := "R3", rule_name := "Cruce Manifest/Prefile - Cantidad",
       message := "No se pudo extraer la cantidad de uno o ambos documentos",
       severity := "error" }]
  else if pyAbs (ratDiff manifest_cantidad prefile_cantidad) > mkRat 1 100 then
    [{ rule_id := "R3", rule_name := "Cruce Manifest/Prefile - Cantidad",
       message := "La cantidad no coincide. Manifiesto: " ++ toString manifest_cantidad ++
         ", Prefile: " ++ toString prefile_cantidad,
       severity := "error" }]
  else []

/-- The R3.5 weight/amount block, under the same exact-rational model of
floats as the quantity block. -/
def r3_peso_monto (manifest_peso prefile_peso : ℚ) : List ValidationError :=
  if manifest_peso = 0 ∨ prefile_peso = 0 then
    [{ rule_id := "R3", rule_name := "Cruce Manifest/Prefile - Peso/Monto",
       message := "No se pudo extraer el peso/monto de uno o ambos documentos",
       severity := "error" }]
  else if pyAbs (ratDiff manifest_peso prefile_peso) > mkRat 1 100 then
    [{ rule_id := "R3", rule_name := "Cruce Manifest/Prefile - Peso/Monto",
       message := "El peso/monto no coincide. Manifiesto: " ++ toString manifest_peso ++
         ", Prefile: " ++ toString prefile_peso,
       severity := "error" }]
  else []

/-- validate_r3_cruce_manifest_prefile: the five blocks run unconditionally
and their findings accumulate in order. -/
def validate_r3_cruce_manifest_prefile (extracted_data : AllExtractedData) : List ValidationError :=
  let manifest := extracted_data.manifest
  let prefile := extracted_data.prefile
  r3_numero_entry manifest.numero_entry prefile.numero_entry
    ++ r3_broker manifest.numero_entry prefile.numero_entry
    ++ r3_descripcion manifest.descripcion_mercancia prefile.descripcion_mercancia
    ++ r3_cantidad manifest.cantidad prefile.cantidad
    ++ r3_peso_monto manifest.peso_monto prefile.peso_monto

/-- validate_r4_aduana from core/validator.py. -/
def validate_r4_aduana (extracted_data : AllExtractedData) : Option ValidationError :=
  let seccion_aduanera := extracted_data.doda.seccion_aduanera
  let aduana_arribo := extracted_data.manifest.aduana_arribo
  if seccion_aduanera = NO_ENCONTRADO ∨ seccion_aduanera = [] then
    some { rule_id := "R4", rule_name := "Coincidencia de Aduana",
           message := "No se pudo extraer la sección aduanera del DODA",
           severity := "error" }
  else if aduana_arribo = NO_ENCONTRADO ∨ aduana_arribo = [] then
    some { rule_id := "R4", rule_name := "Coincidencia de Aduana",
           message := "No se pudo extraer la aduana de arribo del Manifiesto",
           severity := "error" }
  else if strings_match seccion_aduanera aduana_arribo (mkRat 9 10) = false then
    some { rule_id := "R4", rule_name := "Coincidencia de Aduana",
           message := "La aduana no coincide. DODA: " ++ String.mk seccion_aduanera ++
             ", Manifiesto: " ++ String.mk aduana_arribo,
           severity := "error" }
  else none

/-- validate_r5_operador from core/validator.py; the blank test models
(not nombre_usuario or not nombre_usuario.strip()). -/
def validate_r5_operador (extracted_data : AllExtractedData)
    (driver_name : PyStr) : Option ValidationError :=
  let nombre_manifest := extracted_data.manifest.nombre_operador
  let nombre_usuario := driver_name
  if nombre_manifest = NO_ENCONTRADO ∨ nombre_manifest = [] then
    some { rule_id := "R5", rule_name := "Coincidencia de Operador",
           message := "No se pudo extraer el nombre del operador del Manifiesto",
           severity := "error" }
  else if nombre_usuario.all pyIsSpace then
    some { rule_id := "R5", rule_name := "Coincidencia de Operador",
           message := "No se ingresó el nombre del operador en el formulario",
           severity := "error" }
  else if strings_match nombre_manifest nombre_usuario (mkRat 7 10) = false then
    some { rule_id := "R5", rule_name := "Coincidencia de Operador",
           message := "El nombre del operador no coincide. Manifiesto: " ++ String.mk nombre_manifest ++
             ", Formulario: " ++ String.mk nombre_usuario,
           severity := "error" }
  else none

def optList : Option ValidationError → List ValidationError
  | none => []
  | some e => [e]

/-- validate_all_rules: run R1 to R5 in order and collect the findings. -/
def validate_all_rules (extracted_data : AllExtractedData)
    (original_data : CapturedData) (nowSec : Int) : List ValidationError :=
  optList (validate_r1_doda_vigencia extracted_data nowSec)
    ++ validate_r2_placas extracted_data
    ++ validate_r3_cruce_manifest_prefile extracted_data
    ++ optList (validate_r4_aduana extracted_data)
    ++ optList (validate_r5_operador extracted_data original_data.driverData.name)

/-- core/validator_enhanced.py RuleValidationDetail, restricted to the
fields the claims concern (the purely presentational icon, summary,
details, comparisons and recommendation fields are omitted; every source
branch sets status and errors exactly as modelled here). -/
structure RuleValidationDetail where
  rule_id : String
  rule_name : String
  status : String
  errors : List ValidationError
  deriving DecidableEq

/-- enhance_r1_validation: both the fromisoformat branch and its except
fallback report status failed with the single finding, and both passing
branches report status passed with no findings. -/
def enhance_r1_validation (extracted_data : AllExtractedData)
    (nowSec : Int) : RuleValidationDetail :=
  match validate_r1_doda_vigencia extracted_data nowSec with
  | some error =>
    { rule_id := "R1", rule_name := "Vigencia del DODA", status := "failed", errors := [error] }
  | none =>
    { rule_id := "R1", rule_name := "Vigencia del DODA", status := "passed", errors := [] }

def enhance_r2_validation (extracted_data : AllExtractedData) : RuleValidationDetail :=
  let errors := validate_r2_placas extracted_data
  if errors = [] then
    { rule_id := "R2", rule_name := "Coincidencia de Placas", status := "passed", errors := [] }
  else
    { rule_id := "R2", rule_name := "Coincidencia de Placas", status := "failed", errors := errors }

/-- enhance_r3_validation: with findings present the status is warning when
there are fewer than 3 findings and failed otherwise. -/
def enhance_r3_validation (extracted_data : AllExtractedData) : RuleValidationDetail :=
  let errors := validate_r3_cruce_manifest_prefile extracted_data
  if errors = [] then
    { rule_id := "R3", rule_name := "Cruce Manifest vs Prefile", status := "passed", errors := [] }
  else
    { rule_id := "R3", rule_name := "Cruce Manifest vs Prefile",
      status := if errors.length < 3 then "warning" else "failed", errors := errors }

def enhance_r4_validation (extracted_data : AllExtractedData) : RuleValidationDetail :=
  match validate_r4_aduana extracted_data with
  | some error =>
    { rule_id := "R4", rule_name := "Coincidencia de Aduana", status := "failed", errors := [error] }
  | none =>
    { rule_id := "R4", rule_name := "Coincidencia de Aduana", status := "passed", errors := [] }

def enhance_r5_validation (extracted_data : AllExtractedData)
    (captured_data : CapturedData) : RuleValidationDetail :=
  match validate_r5_operador extracted_data captured_data.driverData.name with
  | some error =>
    { rule_id := "R5", rule_name := "Coincidencia de Operador", status := "failed", errors := [error] }
  | none =>
    { rule_id := "R5", rule_name := "Coincidencia de Operador", status := "passed", errors := [] }

/-- validate_all_rules_enhanced: the five detailed reports in rule order. -/
def validate_all_rules_enhanced (extracted_data : AllExtractedData)
    (captured_data : CapturedData) (nowSec : Int) : List RuleValidationDetail :=
  [enhance_r1_validation extracted_data nowSec,
   enhance_r2_validation extracted_data,
   enhance_r3_validation extracted_data,
   enhance_r4_validation extracted_data,
   enhance_r5_validation extracted_data captured_data]

/-- Concatenation of the per-rule finding lists of the enhanced report. -/
def allEnhancedErrors (rules : List RuleValidationDetail) : List ValidationError :=
  rules.foldr (fun r acc => r.errors ++ acc) []

/-! Named copies of the finding values the rules construct, used to keep
theorem statements readable; each equals the corresponding literal in the
rule definition by rfl. -/

def r1MissingErr : ValidationError :=
  { rule_id := "R1", rule_name := "Vigencia del DODA",
    message := "No se pudo extraer la fecha de emisión del DODA", severity := "error" }

def r1FormatErr (f : PyStr) : ValidationError :=
  { rule_id := "R1", rule_name := "Vigencia del DODA",
    message := "Formato de fecha inválido en DODA: " ++ String.mk f, severity := "error" }

def r1OldErr (edad : Int) (f : PyStr) : ValidationError :=
  { rule_id := "R1", rule_name := "Vigencia del DODA",
    message := "El DODA tiene " ++ toString edad ++
      " días de antigüedad (máximo permitido: " ++ toString DODA_MAX_AGE_DAYS ++
      " días). Fecha de emisión: " ++ String.mk f,
    severity := "error" }

def r1FutureErr (f : PyStr) : ValidationError :=
  { rule_id := "R1", rule_name := "Vigencia del DODA",
    message := "La fecha de emisión del DODA es futura: " ++ String.mk f, severity := "error" }

def tractoManifestMissingErr : ValidationError :=
  { rule_id := "R2", rule_name := "Coincidencia de Placas - Tracto",
    message := "No se pudo extraer la placa del tracto del Manifiesto", severity := "error" }

def tractoFotoMissingErr : ValidationError :=
  { rule_id := "R2", rule_name := "Coincidencia de Placas - Tracto",
    message := "No se pudo leer la placa del tracto en la foto", severity := "error" }

def remolqueManifestMissingErr : ValidationError :=
  { rule_id := "R2", rule_name := "Coincidencia de Placas - Remolque",
    message := "No se pudo extraer la placa del remolque del Manifiesto", severity := "error" }

def remolqueFotoMissingErr : ValidationError :=
  { rule_id := "R2", rule_name := "Coincidencia de Placas - Remolque",
    message := "No se pudo leer la placa del remolque en la foto", severity := "error" }

def entryMissingErr : ValidationError :=
  { rule_id := "R3", rule_name := "Cruce Manifest/Prefile - Número Entry",
    message := "No se pudo extraer el número de entry de uno o ambos documentos",
    severity := "error" }

def brokerMissingErr : ValidationError :=
  { rule_id := "R3", rule_name := "Cruce Manifest/Prefile - Broker",
    message := "No se pudo extraer el código de broker del número de entry de uno o ambos documentos",
    severity := "error" }

def brokerMismatchErr (manifest_entry prefile_entry : PyStr) : ValidationError :=
  { rule_id := "R3", rule_name := "Cruce Manifest/Prefile - Broker",
    message := "El código de broker no coincide. Manifiesto: " ++
      String.mk (extract_broker_from_entry manifest_entry) ++
      " (Entry: " ++ String.mk manifest_entry ++ "), Prefile: " ++
      String.mk (extract_broker_from_entry prefile_entry) ++
      " (Entry: " ++ String.mk prefile_entry ++ ")",
    severity := "error" }

def descMissingErr : ValidationError :=
  { rule_id := "R3", rule_name := "Cruce Manifest/Prefile - Descripción",
    message := "No se pudo extraer la descripción de mercancía de uno o ambos documentos",
    severity := "error" }

def descMismatchErr (manifest_desc prefile_desc : PyStr) : ValidationError :=
  { rule_id := "R3", rule_name := "Cruce Manifest/Prefile - Descripción",
    message := "La descripción de mercancía no coincide. Manifiesto: " ++ String.mk manifest_desc ++
      ", Prefile: " ++ String.mk prefile_desc,
    severity := "warning" }

def cantidadMissingErr : ValidationError :=
  { rule_id := "R3", rule_name := "Cruce Manifest/Prefile - Cantidad",
    message := "No se pudo extraer la cantidad de uno o ambos documentos", severity := "error" }

def cantidadMismatchErr (cm cp : ℚ) : ValidationError :=
  { rule_id := "R3", rule_name := "Cruce Manifest/Prefile - Cantidad",
    message := "La cantidad no coincide. Manifiesto: " ++ toString cm ++
      ", Prefile: " ++ toString cp,
    severity := "error" }

def pesoMissingErr : ValidationError :=
  { rule_id := "R3", rule_name := "Cruce Manifest/Prefile - Peso/Monto",
    message := "No se pudo extraer el peso/monto de uno o ambos documentos", severity := "error" }

def pesoMismatchErr (pm pp : ℚ) : ValidationError :=
  { rule_id := "R3", rule_name := "Cruce Manifest/Prefile - Peso/Monto",
    message := "El peso/monto no coincide. Manifiesto: " ++ toString pm ++
      ", Prefile: " ++ toString pp,
    severity := "error" }

def aduanaDodaMissingErr : ValidationError :=
  { rule_id := "R4", rule_name := "Coincidencia de Aduana",
    message := "No se pudo extraer la sección aduanera del DODA", severity := "error" }

def aduanaArriboMissingErr : ValidationError :=
  { rule_id := "R4", rule_name := "Coincidencia de Aduana",
    message := "No se pudo extraer la aduana de arribo del Manifiesto", severity := "error" }

def operadorManifestMissingErr : ValidationError :=
  { rule_id := "R5", rule_name := "Coincidencia de Operador",
    message := "No se pudo extraer el nombre del operador del Manifiesto", severity := "error" }

/-! Concrete document sets used by the witnesses and counterexamples. -/

/-- A document set whose every string field is readable and consistent and
whose emission date is 2025-01-01; all rules pass on it one day later. -/
def docsConsistent : AllExtractedData :=
  { doda := { fecha_emision := "2025-01-01".data, seccion_aduanera := "Tijuana".data }
    manifest :=
    { placa_tracto := "ABC-123".data, placa_remolque := "XYZ-789".data
      nombre_operador := "Juan Perez".data, aduana_arribo := "Tijuana".data
      numero_entry := "600258901".data, broker := "Brokers Unidos".data
      descripcion_mercancia := "Productos".data, cantidad := 100, peso_monto := 500 }
    prefile :=
    { numero_entry := "600258901".data, broker := "Brokers Unidos".data
      descripcion_mercancia := "Productos".data, cantidad := 100, peso_monto := 500 }
    tractor_plate := { plate_number := "ABC-123".data, confidence := none }
    trailer_plate := { plate_number := "XYZ-789".data, confidence := none } }

def userConsistent : CapturedData := { driverData := { name := "Juan Perez".data } }

/-- docsConsistent with every guarded extraction replaced by its sentinel. -/
def docsAllSentinel : AllExtractedData :=
  { doda := { fecha_emision := NO_ENCONTRADO, seccion_aduanera := NO_ENCONTRADO }
    manifest :=
    { placa_tracto := NO_ENCONTRADO, placa_remolque := NO_ENCONTRADO
      nombre_operador := NO_ENCONTRADO, aduana_arribo := "Tijuana".data
      numero_entry := NO_ENCONTRADO, broker := "Brokers Unidos".data
      descripcion_mercancia := NO_ENCONTRADO, cantidad := 100, peso_monto := 500 }
    prefile :=
    { numero_entry := "600258901".data, broker := "Brokers Unidos".data
      descripcion_mercancia := "Productos".data, cantidad := 100, peso_monto := 500 }
    tractor_plate := { plate_number := "ABC-123".data, confidence := none }
    trailer_plate := { plate_number := "XYZ-789".data, confidence := none } }

/-- docsConsistent with both plate photographs marked not legible. -/
def docsPlatesIllegible : AllExtractedData :=
  { doda := { fecha_emision := "2025-01-01".data, seccion_aduanera := "Tijuana".data }
    manifest :=
    { placa_tracto := "ABC-123".data, placa_remolque := "XYZ-789".data
      nombre_operador := "Juan Perez".data, aduana_arribo := "Tijuana".data
      numero_entry := "600258901".data, broker := "Brokers Unidos".data
      descripcion_mercancia := "Productos".data, cantidad := 100, peso_monto := 500 }
    prefile :=
    { numero_entry := "600258901".data, broker := "Brokers Unidos".data
      descripcion_mercancia := "Productos".data, cantidad := 100, peso_monto := 500 }
    tractor_plate := { plate_number := NO_LEGIBLE, confidence := none }
    trailer_plate := { plate_number := NO_LEGIBLE, confidence := none } }

/-- docsConsistent with an unparsable emission date. -/
def docsBadDate : AllExtractedData :=
  { doda := { fecha_emision := "01/01/2025".data, seccion_aduanera := "Tijuana".data }
    manifest :=
    { placa_tracto := "ABC-123".data, placa_remolque := "XYZ-789".data
      nombre_operador := "Juan Perez".data, aduana_arribo := "Tijuana".data
      numero_entry := "600258901".data, broker := "Brokers Unidos".data
      descripcion_mercancia := "Productos".data, cantidad := 100, peso_monto := 500 }
    prefile :=
    { numero_entry := "600258901".data, broker := "Brokers Unidos".data
      descripcion_mercancia := "Productos".data, cantidad := 100, peso_monto := 500 }
    tractor_plate := { plate_number := "ABC-123".data, confidence := none }
    trailer_plate := { plate_number := "XYZ-789".data, confidence := none } }

/-- docsConsistent with a readable customs section but the arrival
customs office replaced by the not-found sentinel. -/
def docsArriboMissing : AllExtractedData :=
  { docsConsistent with manifest :=
    { docsConsistent.manifest with aduana_arribo := NO_ENCONTRADO } }

/-- docsConsistent with a three-digit year in the emission date, which
strptime rejects because %Y requires exactly four digits. -/
def docsYear999 : AllExtractedData :=
  { docsConsistent with doda :=
    { docsConsistent.doda with fecha_emision := "999-01-01".data } }

/-- docsConsistent with a space-padded day in the emission date, which
strptime's %d accepts. -/
def docsSpaceDay : AllExtractedData :=
  { docsConsistent with doda :=
    { docsConsistent.doda with fecha_emision := "2025-01- 4".data } }

/-- Midnight, in seconds since the epoch, of a civil date. -/
def midnightSec (y m d : Nat) : Int := 86400 * daysFromCivil y m d

/-- A character that the normalization pipeline leaves untouched: it is
its own decomposition, it is not a combining mark, and it is already
lower-case.  Every character of a normalized string is of this kind,
which is the heart of the idempotence argument. -/
def goodChar (c : Char) : Prop :=
  nfd c = [c] ∧ isMn c = false ∧ pyLower c = c

instance (c : Char) : Decidable (goodChar c) := by
  unfold goodChar
  infer_instance

/-! Bridging lemmas: the kernel-computable arithmetic used inside the rule
definitions is ordinary rational arithmetic. -/

theorem ratDiff_eq (a b : ℚ) : ratDiff a b = a - b := by
  have ha : ((a.den : ℚ)) ≠ 0 := Nat.cast_ne_zero.mpr a.den_nz
  have hb : ((b.den : ℚ)) ≠ 0 := Nat.cast_ne_zero.mpr b.den_nz
  rw [ratDiff, Rat.mkRat_eq_div]
  conv_rhs => rw [← Rat.num_div_den a, ← Rat.num_div_den b]
  rw [div_sub_div _ _ ha hb]
  push_cast
  ring_nf

theorem pyAbs_eq_abs (q : ℚ) : pyAbs q = |q| := by
  by_cases h : q < 0
  · rw [pyAbs, if_pos h, abs_of_neg h]
  · rw [pyAbs, if_neg h, abs_of_nonneg (not_lt.mp h)]

theorem mkRat_centi : (mkRat 1 100 : ℚ) = 1 / 100 := by
  rw [Rat.mkRat_eq_div]
  norm_num

/-- C10: each enriched rule outcome carries exactly the findings of the
corresponding basic evaluator (R1 through R5 respectively), so
concatenating the errors of the five enriched outcomes in rule order
yields the flat finding list of validate_all_rules on the same input. -/
theorem enhanced_refines_basic (d : AllExtractedData) (u : CapturedData) (t : Int) :
    (enhance_r1_validation d t).errors = optList (validate_r1_doda_vigencia d t) ∧
    (enhance_r2_validation d).errors = validate_r2_placas d ∧
    (enhance_r3_validation d).errors = validate_r3_cruce_manifest_prefile d ∧
    (enhance_r4_validation d).errors = optList (validate_r4_aduana d) ∧
    (enhance_r5_validation d u).errors = optList (validate_r5_operador d u.driverData.name) ∧
    allEnhancedErrors (validate_all_rules_enhanced d u t) = validate_all_rules d u t := by
  have e1 : (enhance_r1_validation d t).errors = optList (validate_r1_doda_vigencia d t) := by
    cases h : validate_r1_doda_vigencia d t <;> simp [enhance_r1_validation, optList, h]
  have e2 : (enhance_r2_validation d).errors = validate_r2_placas d := by
    by_cases h : validate_r2_placas d = [] <;> simp [enhance_r2_validation, h]
  have e3 : (enhance_r3_validation d).errors = validate_r3_cruce_manifest_prefile d := by
    by_cases h : validate_r3_cruce_manifest_prefile d = [] <;> simp [enhance_r3_validation, h]
  have e4 : (enhance_r4_validation d).errors = optList (validate_r4_aduana d) := by
    cases h : validate_r4_aduana d <;> simp [enhance_r4_validation, optList, h]
  have e5 : (enhance_r5_validation d u).errors =
      optList (validate_r5_operador d u.driverData.name) := by
    cases h : validate_r5_operador d u.driverData.name <;>
      simp [enhance_r5_validation, optList, h]
  refine ⟨e1, e2, e3, e4, e5, ?_⟩
  simp [allEnhancedErrors, validate_all_rules_enhanced, validate_all_rules,
    e1, e2, e3, e4, e5, List.append_assoc]

/-- C9: the enriched R3 outcome has status passed exactly when the R3
evaluator produced zero findings, warning exactly when it produced one or
two findings (whatever their severity), and failed exactly when it
produced three or more. -/
theorem r3_status_spec (d : AllExtractedData) :
    ((enhance_r3_validation d).status = "passed" ↔
      validate_r3_cruce_manifest_prefile d = []) ∧
    ((enhance_r3_validation d).status = "warning" ↔
      ((validate_r3_cruce_manifest_prefile d).length = 1 ∨
        (validate_r3_cruce_manifest_prefile d).length = 2)) ∧
    ((enhance_r3_validation d).status = "failed" ↔
      3 ≤ (validate_r3_cruce_manifest_prefile d).length) := by
  by_cases h : validate_r3_cruce_manifest_prefile d = []
  · have hs : (enhance_r3_validation d).status = "passed" := by
      simp [enhance_r3_validation, h]
    rw [hs, h]
    exact ⟨iff_of_true rfl rfl, iff_of_false (by decide) (by simp),
      iff_of_false (by decide) (by simp)⟩
  · have hlen : (validate_r3_cruce_manifest_prefile d).length ≠ 0 := by
      simpa [List.length_eq_zero] using h
    by_cases h2 : (validate_r3_cruce_manifest_prefile d).length < 3
    · have hs : (enhance_r3_validation d).status = "warning" := by
        simp [enhance_r3_validation, h, h2]
      rw [hs]
      exact ⟨iff_of_false (by decide) h, iff_of_true rfl (by omega),
        iff_of_false (by decide) (by omega)⟩
    · have hs : (enhance_r3_validation d).status = "failed" := by
        simp [enhance_r3_validation, h, h2]
      rw [hs]
      exact ⟨iff_of_false (by decide) h, iff_of_false (by decide) (by omega),
        iff_of_true rfl (by omega)⟩

/-- C1 (code bug): a string that normalizes to the empty string is matched
against every non-blank string, for every threshold: the containment check
of strings_match accepts the empty string as a substring of anything
before the blank guard below it can run, so the guard is unreachable and
a blank value fuzzy-matches every non-blank value. -/
theorem strings_match_blank_bug :
    normalize_string "".data = [] ∧ normalize_string "x".data ≠ [] ∧
    ∀ t : ℚ, strings_match "".data "x".data t = true :=
  ⟨rfl, by decide, fun _ => rfl⟩

/-- C2 (counterexample): strings_match can return true when exactly one of
its two arguments is a sentinel token: the sentinel is contained verbatim
in the other, non-sentinel argument. -/
theorem strings_match_sentinel_cex :
    "abc NO_ENCONTRADO".data ≠ NO_ENCONTRADO ∧
    "abc NO_ENCONTRADO".data ≠ NO_LEGIBLE ∧
    strings_match NO_ENCONTRADO "abc NO_ENCONTRADO".data (mkRat 9 10) = true := by
  decide

/-- C2 (amended): sentinel exclusion is enforced by the rule evaluators,
not by strings_match itself: every comparison site tests its fields for
the sentinel tokens first and emits the missing-data error finding without
consulting string similarity, so a sentinel-valued extracted field never
produces a successful match. -/
theorem sentinel_guard_spec (d : AllExtractedData) :
    (d.manifest.placa_tracto = NO_ENCONTRADO →
      validate_r2_tracto d = [tractoManifestMissingErr]) ∧
    (d.manifest.placa_tracto ≠ NO_ENCONTRADO → d.manifest.placa_tracto ≠ [] →
      d.tractor_plate.plate_number = NO_LEGIBLE →
      validate_r2_tracto d = [tractoFotoMissingErr]) ∧
    (d.manifest.placa_remolque = NO_ENCONTRADO →
      validate_r2_remolque d = [remolqueManifestMissingErr]) ∧
    (d.manifest.placa_remolque ≠ NO_ENCONTRADO → d.manifest.placa_remolque ≠ [] →
      d.trailer_plate.plate_number = NO_LEGIBLE →
      validate_r2_remolque d = [remolqueFotoMissingErr]) ∧
    (d.manifest.numero_entry = NO_ENCONTRADO ∨ d.prefile.numero_entry = NO_ENCONTRADO →
      r3_numero_entry d.manifest.numero_entry d.prefile.numero_entry = [entryMissingErr]) ∧
    (d.manifest.descripcion_mercancia = NO_ENCONTRADO ∨
        d.prefile.descripcion_mercancia = NO_ENCONTRADO →
      r3_descripcion d.manifest.descripcion_mercancia d.prefile.descripcion_mercancia
        = [descMissingErr]) ∧
    (d.doda.seccion_aduanera = NO_ENCONTRADO →
      validate_r4_aduana d = some aduanaDodaMissingErr) ∧
    (d.doda.seccion_aduanera ≠ NO_ENCONTRADO → d.doda.seccion_aduanera ≠ [] →
      d.manifest.aduana_arribo = NO_ENCONTRADO →
      validate_r4_aduana d = some aduanaArriboMissingErr) ∧
    (∀ name, d.manifest.nombre_operador = NO_ENCONTRADO →
      validate_r5_operador d name = some operadorManifestMissingErr) := by
  refine ⟨?_, ?_, ?_, ?_, ?_, ?_, ?_, ?_, ?_⟩
  · intro h
    simp [validate_r2_tracto, h, tractoManifestMissingErr]
  · intro h1 h2 h3
    simp [validate_r2_tracto, h1, h2, h3, tractoFotoMissingErr]
  · intro h
    simp [validate_r2_remolque, h, remolqueManifestMissingErr]
  · intro h1 h2 h3
    simp [validate_r2_remolque, h1, h2, h3, remolqueFotoMissingErr]
  · intro h
    simp [r3_numero_entry, h, entryMissingErr]
  · intro h
    simp [r3_descripcion, h, descMissingErr]
  · intro h
    simp [validate_r4_aduana, h, aduanaDodaMissingErr]
  · intro h1 h2 h3
    simp [validate_r4_aduana, h1, h2, h3, aduanaArriboMissingErr]
  · intro name h
    simp [validate_r5_operador, h, operadorManifestMissingErr]

/-- Witness for the amended C2 statement at concrete sentinel-valued
document sets. -/
theorem sentinel_guard_witness :
    validate_r2_tracto docsAllSentinel = [tractoManifestMissingErr] ∧
    validate_r2_tracto docsPlatesIllegible = [tractoFotoMissingErr] ∧
    validate_r2_remolque docsAllSentinel = [remolqueManifestMissingErr] ∧
    validate_r2_remolque docsPlatesIllegible = [remolqueFotoMissingErr] ∧
    r3_numero_entry docsAllSentinel.manifest.numero_entry
      docsAllSentinel.prefile.numero_entry = [entryMissingErr] ∧
    r3_descripcion docsAllSentinel.manifest.descripcion_mercancia
      docsAllSentinel.prefile.descripcion_mercancia = [descMissingErr] ∧
    validate_r4_aduana docsAllSentinel = some aduanaDodaMissingErr ∧
    validate_r4_aduana docsArriboMissing = some aduanaArriboMissingErr ∧
    validate_r5_operador docsAllSentinel "Juan".data = some operadorManifestMissingErr :=
  ⟨(sentinel_guard_spec docsAllSentinel).1 rfl,
   (sentinel_guard_spec docsPlatesIllegible).2.1 (by decide) (by decide) rfl,
   (sentinel_guard_spec docsAllSentinel).2.2.1 rfl,
   (sentinel_guard_spec docsPlatesIllegible).2.2.2.1 (by decide) (by decide) rfl,
   (sentinel_guard_spec docsAllSentinel).2.2.2.2.1 (Or.inl rfl),
   (sentinel_guard_spec docsAllSentinel).2.2.2.2.2.1 (Or.inl rfl),
   (sentinel_guard_spec docsAllSentinel).2.2.2.2.2.2.1 rfl,
   (sentinel_guard_spec docsArriboMissing).2.2.2.2.2.2.2.1 (by decide) (by decide) rfl,
   (sentinel_guard_spec docsAllSentinel).2.2.2.2.2.2.2.2 ("Juan".data) rfl⟩

/-- C5: the R3 broker sub-check derives each side's code by removing all
non-digit characters from the entry number and taking the first 3 digits;
either side yielding fewer than 3 digits gives exactly one error finding,
and otherwise there is exactly one error finding just when the two 3-digit
codes differ as strings. -/
theorem r3_broker_spec (me pe : PyStr) :
    extract_broker_from_entry me =
      (if 3 ≤ (me.filter Char.isDigit).length
       then (me.filter Char.isDigit).take 3 else NO_ENCONTRADO) ∧
    (extract_broker_from_entry me = NO_ENCONTRADO ∨
        extract_broker_from_entry pe = NO_ENCONTRADO →
      r3_broker me pe = [brokerMissingErr]) ∧
    (extract_broker_from_entry me ≠ NO_ENCONTRADO →
      extract_broker_from_entry pe ≠ NO_ENCONTRADO →
      (extract_broker_from_entry me ≠ extract_broker_from_entry pe →
        r3_broker me pe = [brokerMismatchErr me pe]) ∧
      (extract_broker_from_entry me = extract_broker_from_entry pe →
        r3_broker me pe = [])) := by
  refine ⟨?_, ?_, ?_⟩
  · by_cases h : me = NO_ENCONTRADO ∨ me = []
    · rcases h with h | h <;> subst h <;> decide
    · simp [extract_broker_from_entry, h]
  · intro h
    simp [r3_broker, h, brokerMissingErr]
  · intro h1 h2
    constructor
    · intro hne
      simp [r3_broker, h1, h2, hne, brokerMismatchErr]
    · intro heq
      simp [r3_broker, h1, h2, heq]

/-- Witness for C5 at concrete entry numbers: too few digits, mismatching
codes 231 versus 600, and matching codes 600. -/
theorem r3_broker_witness :
    extract_broker_from_entry "231-2712401-9".data =
      (if 3 ≤ ("231-2712401-9".data.filter Char.isDigit).length
       then ("231-2712401-9".data.filter Char.isDigit).take 3 else NO_ENCONTRADO) ∧
    r3_broker "ab".data "600258901".data = [brokerMissingErr] ∧
    r3_broker "231-2712401-9".data "600258901".data =
      [brokerMismatchErr "231-2712401-9".data "600258901".data] ∧
    r3_broker "600-258901".data "600258901".data = [] :=
  ⟨(r3_broker_spec "231-2712401-9".data "600258901".data).1,
   (r3_broker_spec "ab".data "600258901".data).2.1 (Or.inl (by decide)),
   ((r3_broker_spec "231-2712401-9".data "600258901".data).2.2
     (by decide) (by decide)).1 (by decide),
   ((r3_broker_spec "600-258901".data "600258901".data).2.2
     (by decide) (by decide)).2 (by decide)⟩

/-- C7: every finding of the entry-number, broker, quantity and
weight/amount sub-checks of R3 has severity error, and every finding the
description sub-check emits for a fuzzy mismatch of two present (non
sentinel) values has severity warning. -/
theorem r3_severity_spec (me pe dm dp : PyStr) (a b p q : ℚ) :
    (∀ e ∈ r3_numero_entry me pe, e.severity = "error") ∧
    (∀ e ∈ r3_broker me pe, e.severity = "error") ∧
    (∀ e ∈ r3_cantidad a b, e.severity = "error") ∧
    (∀ e ∈ r3_peso_monto p q, e.severity = "error") ∧
    (dm ≠ NO_ENCONTRADO → dp ≠ NO_ENCONTRADO →
      ∀ e ∈ r3_descripcion dm dp, e.severity = "warning") := by
  refine ⟨?_, ?_, ?_, ?_, ?_⟩
  · intro e he
    simp only [r3_numero_entry] at he
    split at he <;> simp_all
  · intro e he
    simp only [r3_broker] at he
    split at he <;> simp_all
  · intro e he
    simp only [r3_cantidad] at he
    split at he
    · simp_all
    · split at he <;> simp_all
  · intro e he
    simp only [r3_peso_monto] at he
    split at he
    · simp_all
    · split at he <;> simp_all
  · intro h1 h2 e he
    simp only [r3_descripcion] at he
    split at he
    · simp_all
    · split at he <;> simp_all

/-- Witness for C7 at concrete findings of each sub-check. -/
theorem r3_severity_witness :
    entryMissingErr.severity = "error" ∧
    brokerMissingErr.severity = "error" ∧
    cantidadMissingErr.severity = "error" ∧
    pesoMissingErr.severity = "error" ∧
    (descMismatchErr "aa".data "bb".data).severity = "warning" :=
  ⟨(r3_severity_spec NO_ENCONTRADO "x".data "aa".data "bb".data 0 0 0 0).1
     entryMissingErr (by decide),
   (r3_severity_spec "ab".data "x".data "aa".data "bb".data 0 0 0 0).2.1
     brokerMissingErr (by decide),
   (r3_severity_spec "ab".data "x".data "aa".data "bb".data 0 0 0 0).2.2.1
     cantidadMissingErr (by decide),
   (r3_severity_spec "ab".data "x".data "aa".data "bb".data 0 0 0 0).2.2.2.1
     pesoMissingErr (by decide),
   (r3_severity_spec "ab".data "x".data "aa".data "bb".data 0 0 0 0).2.2.2.2
     (by decide) (by decide) (descMismatchErr "aa".data "bb".data) (by decide)⟩

/-- C3: R1 emits exactly one error finding when the emission-date field is
the not-found sentinel or empty; exactly one error finding containing the
raw string when the field does not parse as a year-month-day date; exactly
one error finding when the floored age in days exceeds the 3-day limit;
exactly one error finding when the age is negative (future-dated); and no
finding otherwise, so age exactly 3 passes and age 4 fails. -/
theorem r1_vigencia_spec (d : AllExtractedData) (now : Int) :
    (d.doda.fecha_emision = NO_ENCONTRADO ∨ d.doda.fecha_emision = [] →
      validate_r1_doda_vigencia d now = some r1MissingErr) ∧
    (d.doda.fecha_emision ≠ NO_ENCONTRADO → d.doda.fecha_emision ≠ [] →
      parseDateYMD d.doda.fecha_emision = none →
      validate_r1_doda_vigencia d now = some (r1FormatErr d.doda.fecha_emision)) ∧
    (∀ ymd, d.doda.fecha_emision ≠ NO_ENCONTRADO → d.doda.fecha_emision ≠ [] →
      parseDateYMD d.doda.fecha_emision = some ymd →
      (DODA_MAX_AGE_DAYS < edadDias now ymd →
        validate_r1_doda_vigencia d now =
          some (r1OldErr (edadDias now ymd) d.doda.fecha_emision)) ∧
      (edadDias now ymd < 0 →
        validate_r1_doda_vigencia d now = some (r1FutureErr d.doda.fecha_emision)) ∧
      (0 ≤ edadDias now ymd → edadDias now ymd ≤ DODA_MAX_AGE_DAYS →
        validate_r1_doda_vigencia d now = none)) := by
  refine ⟨?_, ?_, ?_⟩
  · intro h
    simp [validate_r1_doda_vigencia, h, r1MissingErr]
  · intro h1 h2 hp
    simp [validate_r1_doda_vigencia, h1, h2, hp, r1FormatErr]
  · intro ymd h1 h2 hp
    refine ⟨?_, ?_, ?_⟩
    · intro hb
      simp [validate_r1_doda_vigencia, h1, h2, hp, hb, r1OldErr]
    · intro hneg
      have hnotgt : ¬ (DODA_MAX_AGE_DAYS < edadDias now ymd) := by
        unfold DODA_MAX_AGE_DAYS
        omega
      simp [validate_r1_doda_vigencia, h1, h2, hp, hnotgt, hneg, r1FutureErr]
    · intro hge hle
      have hnotgt : ¬ (DODA_MAX_AGE_DAYS < edadDias now ymd) := not_lt.mpr hle
      have hnotneg : ¬ (edadDias now ymd < 0) := not_lt.mpr hge
      simp [validate_r1_doda_vigencia, h1, h2, hp, hnotgt, hnotneg]

/-- Witness for C3: a sentinel date, an unparsable date, a three-digit
year (rejected, since the %Y field takes exactly four digits), an age of 4
days (one past the limit), a future date, the passing age-3 boundary, and
a space-padded day accepted by the %d field. -/
theorem r1_vigencia_witness :
    validate_r1_doda_vigencia docsAllSentinel 0 = some r1MissingErr ∧
    validate_r1_doda_vigencia docsBadDate 0 = some (r1FormatErr "01/01/2025".data) ∧
    validate_r1_doda_vigencia docsYear999 0 = some (r1FormatErr "999-01-01".data) ∧
    validate_r1_doda_vigencia docsConsistent (midnightSec 2025 1 5) =
      some (r1OldErr 4 "2025-01-01".data) ∧
    validate_r1_doda_vigencia docsConsistent (midnightSec 2024 12 31) =
      some (r1FutureErr "2025-01-01".data) ∧
    validate_r1_doda_vigencia docsConsistent (midnightSec 2025 1 4) = none ∧
    validate_r1_doda_vigencia docsSpaceDay (midnightSec 2025 1 4) = none :=
  ⟨(r1_vigencia_spec docsAllSentinel 0).1 (Or.inl rfl),
   (r1_vigencia_spec docsBadDate 0).2.1 (by decide) (by decide) (by decide),
   (r1_vigencia_spec docsYear999 0).2.1 (by decide) (by decide) (by decide),
   ((r1_vigencia_spec docsConsistent (midnightSec 2025 1 5)).2.2
     (2025, 1, 1) (by decide) (by decide) (by decide)).1 (by decide),
   ((r1_vigencia_spec docsConsistent (midnightSec 2024 12 31)).2.2
     (2025, 1, 1) (by decide) (by decide) (by decide)).2.1 (by decide),
   ((r1_vigencia_spec docsConsistent (midnightSec 2025 1 4)).2.2
     (2025, 1, 1) (by decide) (by decide) (by decide)).2.2 (by decide) (by decide),
   ((r1_vigencia_spec docsSpaceDay (midnightSec 2025 1 4)).2.2
     (2025, 1, 4) (by decide) (by decide) (by decide)).2.2 (by decide) (by decide)⟩

/-- C4 (counterexample): the finding list of the full rule set is not a
function of (doc_set, user_data) alone: the same inputs evaluated with the
clock read at two different times produce different finding lists, because
R1 measures the document age against the current time. -/
theorem determinism_cex :
    validate_all_rules docsConsistent userConsistent (midnightSec 2025 1 2) ≠
    validate_all_rules docsConsistent userConsistent (midnightSec 2026 1 1) := by
  decide

/-- C4 (amended): evaluation is deterministic in the inputs together with
the clock reading R1 consumes: whenever R1 agrees at two clock readings on
a document set, the full rule set returns identical finding lists there;
no rule other than R1 reads the clock. -/
theorem clock_determinism_spec (d : AllExtractedData) (u : CapturedData) (t1 t2 : Int)
    (h : validate_r1_doda_vigencia d t1 = validate_r1_doda_vigencia d t2) :
    validate_all_rules d u t1 = validate_all_rules d u t2 := by
  unfold validate_all_rules
  rw [h]

/-- Witness for the amended C4 statement: two clock readings an hour
apart within the same day give identical finding lists. -/
theorem clock_determinism_witness :
    validate_all_rules docsConsistent userConsistent (midnightSec 2025 1 2) =
    validate_all_rules docsConsistent userConsistent (midnightSec 2025 1 2 + 3600) :=
  clock_determinism_spec docsConsistent userConsistent
    (midnightSec 2025 1 2) (midnightSec 2025 1 2 + 3600) (by decide)

/-! Lemmas for normalization idempotence (C8). -/

theorem tblLookup_mem {A : Type} (tbl : List (Char × A)) (c : Char) (v : A)
    (h : tblLookup tbl c = some v) : (c, v) ∈ tbl := by
  induction tbl with
  | nil => simp [tblLookup] at h
  | cons p rest ih =>
    obtain ⟨k, w⟩ := p
    rw [tblLookup] at h
    split at h
    · rename_i hc
      subst hc
      simp at h
      subst h
      simp
    · exact List.mem_cons_of_mem _ (ih h)

theorem nfdTable_good :
    ∀ p ∈ nfdTable, ∀ e ∈ p.2, isMn e = false → goodChar (pyLower e) := by
  decide

theorem lowerTable_good : ∀ p ∈ lowerTable, goodChar p.2 := by
  decide

theorem space_goodChar : goodChar ' ' := by
  decide

/-- Any non-mark character of any decomposition becomes good after
lower-casing. -/
theorem goodChar_pyLower (c e : Char) (he : e ∈ nfd c) (hmn : isMn e = false) :
    goodChar (pyLower e) := by
  rw [nfd] at he
  cases h : tblLookup nfdTable c with
  | some ds =>
    rw [h] at he
    exact nfdTable_good (c, ds) (tblLookup_mem _ _ _ h) e he hmn
  | none =>
    rw [h] at he
    simp at he
    subst he
    cases h2 : tblLookup lowerTable e with
    | some l =>
      have : pyLower e = l := by rw [pyLower, h2]
      rw [this]
      exact lowerTable_good (e, l) (tblLookup_mem _ _ _ h2)
    | none =>
      have hl : pyLower e = e := by rw [pyLower, h2]
      rw [hl]
      refine ⟨?_, hmn, hl⟩
      rw [nfd, h]

/-- On a string of good characters the decompose/strip/lower stage is the
identity. -/
theorem stage_id (l : PyStr) (h : ∀ c ∈ l, goodChar c) :
    ((nfdAll l).filter (fun c => !isMn c)).map pyLower = l := by
  induction l with
  | nil => rfl
  | cons c cs ih =>
    obtain ⟨h1, h2, h3⟩ := h c (by simp)
    have hcs : ∀ x ∈ cs, goodChar x := fun x hx => h x (by simp [hx])
    simp only [nfdAll, h1]
    simp [h2, h3, ih hcs]

/-- The one-step unfolding of splitWs on a nonempty input. -/
theorem splitWs_cons (c : Char) (cs : List Char) :
    splitWs (c :: cs) =
      if pyIsSpace c then splitWs cs
      else
        match cs, splitWs cs with
        | [], _ => [[c]]
        | d :: _, rest =>
          if pyIsSpace d then [c] :: rest
          else
            match rest with
            | [] => [[c]]
            | w :: ws => (c :: w) :: ws := by
  rw [splitWs.eq_def]

theorem splitWs_space_cons (c : Char) (cs : List Char) (h : pyIsSpace c = true) :
    splitWs (c :: cs) = splitWs cs := by
  rw [splitWs_cons]
  simp [h]

theorem splitWs_one (c : Char) (h : pyIsSpace c = false) :
    splitWs [c] = [[c]] := by
  rw [splitWs_cons]
  simp [h]

theorem splitWs_word_space (c d : Char) (cs2 : List Char)
    (hc : pyIsSpace c = false) (hd : pyIsSpace d = true) :
    splitWs (c :: d :: cs2) = [c] :: splitWs (d :: cs2) := by
  rw [splitWs_cons]
  simp [hc, hd]

theorem splitWs_word_word_nil (c d : Char) (cs2 : List Char)
    (hc : pyIsSpace c = false) (hd : pyIsSpace d = false)
    (hrest : splitWs (d :: cs2) = []) :
    splitWs (c :: d :: cs2) = [[c]] := by
  rw [splitWs_cons]
  simp [hc, hd, hrest]

theorem splitWs_word_word_cons (c d : Char) (cs2 w0 : List Char) (ws0 : List PyStr)
    (hc : pyIsSpace c = false) (hd : pyIsSpace d = false)
    (hrest : splitWs (d :: cs2) = w0 :: ws0) :
    splitWs (c :: d :: cs2) = (c :: w0) :: ws0 := by
  rw [splitWs_cons]
  simp [hc, hd, hrest]

/-- Every word splitWs produces is nonempty and whitespace-free. -/
theorem splitWs_words (l : PyStr) :
    ∀ w ∈ splitWs l, w ≠ [] ∧ ∀ c ∈ w, pyIsSpace c = false := by
  induction l with
  | nil => intro w hw; exact absurd hw (by simp [splitWs])
  | cons c cs ih =>
    by_cases hsp : pyIsSpace c = true
    · rw [splitWs_space_cons c cs hsp]
      exact ih
    · have hc : pyIsSpace c = false := by simpa using hsp
      cases cs with
      | nil =>
        rw [splitWs_one c hc]
        intro w hw
        simp at hw
        subst hw
        refine ⟨by simp, ?_⟩
        intro x hx
        simp at hx
        subst hx
        exact hc
      | cons d cs2 =>
        by_cases hd : pyIsSpace d = true
        · rw [splitWs_word_space c d cs2 hc hd]
          intro w hw
          rcases List.mem_cons.mp hw with hw | hw
          · subst hw
            refine ⟨by simp, ?_⟩
            intro x hx
            simp at hx
            subst hx
            exact hc
          · exact ih w hw
        · have hd2 : pyIsSpace d = false := by simpa using hd
          cases hrest : splitWs (d :: cs2) with
          | nil =>
            rw [splitWs_word_word_nil c d cs2 hc hd2 hrest]
            intro w hw
            simp at hw
            subst hw
            refine ⟨by simp, ?_⟩
            intro x hx
            simp at hx
            subst hx
            exact hc
          | cons w0 ws0 =>
            rw [splitWs_word_word_cons c d cs2 w0 ws0 hc hd2 hrest]
            intro w hw
            rcases List.mem_cons.mp hw with hw | hw
            · subst hw
              have h0 := ih w0 (by rw [hrest]; simp)
              refine ⟨by simp, ?_⟩
              intro x hx
              rcases List.mem_cons.mp hx with hx | hx
              · subst hx
                exact hc
              · exact h0.2 x hx
            · exact ih w (by rw [hrest]; simp [hw])

/-- Every character of every word splitWs produces comes from the input. -/
theorem splitWs_subset (l : PyStr) :
    ∀ w ∈ splitWs l, ∀ c ∈ w, c ∈ l := by
  induction l with
  | nil => intro w hw; exact absurd hw (by simp [splitWs])
  | cons c cs ih =>
    by_cases hsp : pyIsSpace c = true
    · rw [splitWs_space_cons c cs hsp]
      intro w hw x hx
      exact List.mem_cons_of_mem _ (ih w hw x hx)
    · have hc : pyIsSpace c = false := by simpa using hsp
      cases cs with
      | nil =>
        rw [splitWs_one c hc]
        intro w hw x hx
        simp at hw
        subst hw
        simpa using hx
      | cons d cs2 =>
        by_cases hd : pyIsSpace d = true
        · rw [splitWs_word_space c d cs2 hc hd]
          intro w hw x hx
          rcases List.mem_cons.mp hw with hw | hw
          · subst hw
            simp at hx
            simp [hx]
          · exact List.mem_cons_of_mem _ (ih w hw x hx)
        · have hd2 : pyIsSpace d = false := by simpa using hd
          cases hrest : splitWs (d :: cs2) with
          | nil =>
            rw [splitWs_word_word_nil c d cs2 hc hd2 hrest]
            intro w hw x hx
            simp at hw
            subst hw
            simp at hx
            simp [hx]
          | cons w0 ws0 =>
            rw [splitWs_word_word_cons c d cs2 w0 ws0 hc hd2 hrest]
            intro w hw x hx
            rcases List.mem_cons.mp hw with hw | hw
            · subst hw
              rcases List.mem_cons.mp hx with hx | hx
              · simp [hx]
              · exact List.mem_cons_of_mem _
                  (ih w0 (by rw [hrest]; simp) x hx)
            · exact List.mem_cons_of_mem _
                (ih w (by rw [hrest]; simp [hw]) x hx)

/-- splitWs of a single nonempty whitespace-free word. -/
theorem splitWs_word_single (w : PyStr) (hne : w ≠ [])
    (hws : ∀ c ∈ w, pyIsSpace c = false) : splitWs w = [w] := by
  induction w with
  | nil => exact absurd rfl hne
  | cons c w2 ih =>
    have hc : pyIsSpace c = false := hws c (by simp)
    cases w2 with
    | nil => exact splitWs_one c hc
    | cons c2 w3 =>
      have h2 : splitWs (c2 :: w3) = [c2 :: w3] :=
        ih (by simp) (fun x hx => hws x (by simp [hx]))
      have hc2 : pyIsSpace c2 = false := hws c2 (by simp)
      exact splitWs_word_word_cons c c2 w3 (c2 :: w3) [] hc hc2 h2

/-- splitWs of a nonempty whitespace-free word, a space, and a rest. -/
theorem splitWs_word_sep (w : PyStr) (t : PyStr) (hne : w ≠ [])
    (hws : ∀ c ∈ w, pyIsSpace c = false) :
    splitWs (w ++ ' ' :: t) = w :: splitWs t := by
  induction w with
  | nil => exact absurd rfl hne
  | cons c w2 ih =>
    have hc : pyIsSpace c = false := hws c (by simp)
    cases w2 with
    | nil =>
      show splitWs (c :: ' ' :: t) = [c] :: splitWs t
      rw [splitWs_word_space c ' ' t hc (by decide),
        splitWs_space_cons ' ' t (by decide)]
    | cons c2 w3 =>
      have h2 : splitWs (c2 :: (w3 ++ ' ' :: t)) = (c2 :: w3) :: splitWs t :=
        ih (by simp) (fun x hx => hws x (by simp [hx]))
      have hc2 : pyIsSpace c2 = false := hws c2 (by simp)
      show splitWs (c :: c2 :: (w3 ++ ' ' :: t)) = (c :: c2 :: w3) :: splitWs t
      exact splitWs_word_word_cons c c2 (w3 ++ ' ' :: t) (c2 :: w3) (splitWs t) hc hc2 h2

/-- Splitting the space-joined image of a clean word list recovers it. -/
theorem join_split (ws : List PyStr)
    (h : ∀ w ∈ ws, w ≠ [] ∧ ∀ c ∈ w, pyIsSpace c = false) :
    splitWs (joinWords ws) = ws := by
  induction ws with
  | nil => simp [joinWords, splitWs]
  | cons w ws2 ih =>
    cases ws2 with
    | nil =>
      obtain ⟨hne, hws⟩ := h w (by simp)
      simpa [joinWords] using splitWs_word_single w hne hws
    | cons w2 ws3 =>
      obtain ⟨hne, hws⟩ := h w (by simp)
      have hrest : splitWs (joinWords (w2 :: ws3)) = w2 :: ws3 :=
        ih (fun x hx => h x (by simp [hx]))
      calc splitWs (joinWords (w :: w2 :: ws3))
          = splitWs (w ++ ' ' :: joinWords (w2 :: ws3)) := by rw [joinWords]
        _ = w :: splitWs (joinWords (w2 :: ws3)) := splitWs_word_sep w _ hne hws
        _ = w :: w2 :: ws3 := by rw [hrest]

/-- A character of a space-joined word list is a space or a word
character. -/
theorem joinWords_mem (ws : List PyStr) (c : Char) (h : c ∈ joinWords ws) :
    c = ' ' ∨ ∃ w ∈ ws, c ∈ w := by
  induction ws with
  | nil => exact absurd h (by simp [joinWords])
  | cons w ws2 ih =>
    cases ws2 with
    | nil =>
      rw [joinWords] at h
      exact Or.inr ⟨w, by simp, h⟩
    | cons w2 ws3 =>
      rw [joinWords] at h
      rcases List.mem_append.mp h with h | h
      · exact Or.inr ⟨w, by simp, h⟩
      · rcases List.mem_cons.mp h with h | h
        · exact Or.inl h
        · rcases ih h with h | ⟨w3, hw3, hc⟩
          · exact Or.inl h
          · exact Or.inr ⟨w3, by simp [List.mem_cons.mp hw3], hc⟩

/-- Every character of a decomposed string comes from the decomposition of
some input character. -/
theorem nfdAll_mem_src (l : PyStr) (c : Char) (h : c ∈ nfdAll l) :
    ∃ e ∈ l, c ∈ nfd e := by
  induction l with
  | nil => simp [nfdAll] at h
  | cons e l2 ih =>
    rw [nfdAll] at h
    rcases List.mem_append.mp h with h | h
    · exact ⟨e, by simp, h⟩
    · rcases ih h with ⟨e2, he2, hc⟩
      exact ⟨e2, by simp [he2], hc⟩

/-- Every character of a normalized string is good. -/
theorem normalize_good (s : PyStr) : ∀ c ∈ normalize_string s, goodChar c := by
  intro c hc
  simp only [normalize_string] at hc
  rcases joinWords_mem _ c hc with h | ⟨w, hw, hcw⟩
  · subst h
    exact space_goodChar
  · have hcl : c ∈ ((nfdAll s).filter (fun x => !isMn x)).map pyLower :=
      splitWs_subset _ w hw c hcw
    rcases List.mem_map.mp hcl with ⟨d, hd, hdc⟩
    rcases List.mem_filter.mp hd with ⟨hdall, hdmn⟩
    rcases nfdAll_mem_src s d hdall with ⟨e, _, hde⟩
    subst hdc
    exact goodChar_pyLower e d hde (by simpa using hdmn)

/-- On a string of good characters normalization is join-after-split. -/
theorem normalize_of_good (x : PyStr) (h : ∀ c ∈ x, goodChar c) :
    normalize_string x = joinWords (splitWs x) := by
  simp only [normalize_string]
  rw [stage_id x h]

/-- C8: normalize is idempotent: stripping accents by canonical
decomposition with combining marks dropped, lower-casing, and collapsing
whitespace runs compose to a function that fixes its own output. -/
theorem normalize_idem (s : PyStr) :
    normalize_string (normalize_string s) = normalize_string s := by
  rw [normalize_of_good _ (normalize_good s)]
  simp only [normalize_string]
  rw [join_split _ (splitWs_words _)]

end Aduana
